import Mathlib

/-!
Verification development for the soundcheck repository: a shallow embedding of
the OAuth token lifecycle (`src/lib/utils/parsing.ts`, `src/lib/utils/token-storage.ts`),
the Spotify SDK loader and player hook (`src/lib/hooks/useSpotifyPlayer.ts`),
and the agent-invoked quiz tools (`src/components/QuizPlayer.tsx`).

JavaScript numbers that can be `NaN` are embedded as `JsNum`; nullable strings
as `Option String` with JS truthiness made explicit; `sessionStorage` as an
`Option StoredValue`; timers as an explicit list of pending timeouts so that
"at most one automatic stop pending" is a provable fact rather than one forced
by the embedding's types.
-/

namespace Soundcheck

/-! ### Constants (src/lib/config/constants.ts) -/

def SNIPPET_DURATION_MS : Nat := 5000

def MAX_REPLAYS : Nat := 2

def SONGS_PER_ROUND : Nat := 10

/-! ### JS value helpers -/

/-- A JavaScript number that may be `NaN` (arises from `parseInt` on a
non-numeric `expires_in` value). -/
inductive JsNum where
  | nan : JsNum
  | val : Int → JsNum
deriving DecidableEq, Repr

/-- JS truthiness of a number: `NaN` and `0` are falsy. -/
def JsNum.falsy : JsNum → Bool
  | .nan => true
  | .val n => n = 0

/-- JS truthiness of a nullable string: `null` and `""` are falsy. -/
def jsFalsyStr : Option String → Bool
  | none => true
  | some s => s = ""

/-- JS `parseInt(s, 10)`: skip leading whitespace, optional sign, then the
maximal run of decimal digits; `NaN` (here `none`) when no digit follows. -/
def jsParseInt (s : String) : Option Int :=
  let l := s.data.dropWhile fun c => c = ' ' || c = '\t' || c = '\n' || c = '\r'
  let sign : Int × List Char :=
    match l with
    | '-' :: rest => (-1, rest)
    | '+' :: rest => (1, rest)
    | _ => (1, l)
  let digits := sign.2.takeWhile Char.isDigit
  if digits.isEmpty then none
  else some (sign.1 * (digits.foldl (fun acc c => acc * 10 + (c.toNat - '0'.toNat)) (0 : Nat) : Nat))

/-! ### URLSearchParams (as used by parseSpotifyTokenFromHash) -/

/-- Value of one hex digit, `none` for a non-hex character. -/
def hexVal (c : Char) : Option Nat :=
  if '0' ≤ c ∧ c ≤ '9' then some (c.toNat - '0'.toNat)
  else if 'a' ≤ c ∧ c ≤ 'f' then some (c.toNat - 'a'.toNat + 10)
  else if 'A' ≤ c ∧ c ≤ 'F' then some (c.toNat - 'A'.toNat + 10)
  else none

/-- `application/x-www-form-urlencoded` decoding on characters: `+` becomes a
space, `%hh` becomes the byte `hh`; a malformed `%` sequence is kept as is. -/
def formDecodeAux (fuel : Nat) (l : List Char) : List Char :=
  match fuel, l with
  | 0, _ => []
  | _, [] => []
  | fuel + 1, c :: rest =>
    if c = '+' then ' ' :: formDecodeAux fuel rest
    else if c = '%' then
      match rest with
      | h1 :: h2 :: rest2 =>
        match hexVal h1, hexVal h2 with
        | some a, some b => Char.ofNat (16 * a + b) :: formDecodeAux fuel rest2
        | _, _ => '%' :: formDecodeAux fuel rest
      | _ => '%' :: formDecodeAux fuel rest
    else c :: formDecodeAux fuel rest

/-- The fuel (one unit per consumed character, so the list's length is always
enough) only makes the recursion structural; it never runs out. -/
def formDecode (s : String) : String := ⟨formDecodeAux s.data.length s.data⟩

/-- Split a `key=value` segment at the first `=`; `none` when there is no `=`
(the whole segment is then the key and the value is empty). -/
def splitFirstEq : List Char → List Char × Option (List Char)
  | [] => ([], none)
  | '=' :: rest => ([], some rest)
  | c :: rest =>
    let p := splitFirstEq rest
    (c :: p.1, p.2)

/-- Split a character list on a separator (used for the `&`-separated query
pairs). -/
def splitOnChar (sep : Char) : List Char → List (List Char)
  | [] => [[]]
  | c :: rest =>
    match splitOnChar sep rest with
    | [] => [[]]
    | seg :: segs => if c = sep then [] :: seg :: segs else (c :: seg) :: segs

/-- `new URLSearchParams(query).get(key)`: split on `&`, drop empty segments,
split each segment at the first `=`, form-decode both sides, return the first
value whose key matches (`none` models JS `null`). -/
def urlParamsGet (query : String) (key : String) : Option String :=
  let segs := (splitOnChar '&' query.data).filter (fun s => s ≠ [])
  let pairs := segs.map fun seg =>
    let p := splitFirstEq seg
    (formDecode ⟨p.1⟩, formDecode ⟨p.2.getD []⟩)
  (pairs.find? fun p => p.1 = key).map (fun p => p.2)

/-! ### parsing.ts -/

/-- `SpotifyTokenData` from src/lib/utils/parsing.ts. `expiresAt` is a JS
number (it can be `NaN` when `expires_in` fails to parse). -/
structure SpotifyTokenData where
  accessToken : String
  tokenType : String
  expiresAt : JsNum
deriving DecidableEq, Repr

/-- Default safety buffer of `isTokenExpired` (5 minutes). -/
def TOKEN_EXPIRY_BUFFER_MS : Int := 5 * 60 * 1000

/-- `isTokenExpired(expiresAt, bufferMs)` — `Date.now() >= expiresAt - bufferMs`.
The current time is passed explicitly; a `NaN` expiry compares false. -/
def isTokenExpired (now : Int) (expiresAt : JsNum) (bufferMs : Int) : Bool :=
  match expiresAt with
  | .nan => false
  | .val e => e - bufferMs ≤ now

/-- `parseSpotifyTokenFromHash(hash)` from src/lib/utils/parsing.ts: reject an
empty hash or one not starting with `#`; read `access_token`, `expires_in` and
`token_type` from the fragment's query params; reject a missing (or empty,
hence falsy) access token; default `expires_in` to 3600 seconds and
`token_type` to `"Bearer"`; the expiry instant is absolute:
`Date.now() + expiresInSeconds * 1000`. -/
def startsWithHash (s : String) : Bool :=
  match s.data with
  | '#' :: _ => true
  | _ => false

def parseSpotifyTokenFromHash (now : Int) (hash : String) : Option SpotifyTokenData :=
  if hash = "" || !startsWithHash hash then none
  else
    let query : String := ⟨hash.data.tail⟩
    let accessToken := urlParamsGet query "access_token"
    let expiresIn := urlParamsGet query "expires_in"
    let tokenType := urlParamsGet query "token_type"
    match accessToken with
    | none => none
    | some tok =>
      if tok = "" then none
      else
        let expiresInSeconds : JsNum :=
          if jsFalsyStr expiresIn then .val 3600
          else match jsParseInt (expiresIn.getD "") with
            | none => .nan
            | some n => .val n
        let expiresAt : JsNum :=
          match expiresInSeconds with
          | .nan => .nan
          | .val n => .val (now + n * 1000)
        some { accessToken := tok
               tokenType := if jsFalsyStr tokenType then "Bearer" else tokenType.getD ""
               expiresAt := expiresAt }

/-! ### token-storage.ts -/

/-- Content of the `soundcheck_spotify_token` sessionStorage key. `malformed`
covers a value `JSON.parse` throws on or one whose required fields are absent
(an absent field is falsy exactly like the `""` / `0` / `NaN` cases the
validation in `getStoredToken` already rejects). -/
inductive StoredValue where
  | malformed : StoredValue
  | record : SpotifyTokenData → StoredValue
deriving DecidableEq, Repr

/-- The sessionStorage slot for the token key; `none` means no value stored. -/
abbrev SessionStore := Option StoredValue

/-- `saveToken`: `JSON.stringify` the record into the slot. -/
def saveToken (d : SpotifyTokenData) (_store : SessionStore) : SessionStore :=
  some (.record d)

/-- `clearToken`: remove the stored value. -/
def clearToken (_store : SessionStore) : SessionStore := none

/-- `getStoredToken()`: returns the parsed record and the storage slot after
the call (the slot is cleared whenever `null` is returned for a present but
unusable value). Mirrors the source's checks in order: missing value, JSON
parse failure, falsy `accessToken` or `expiresAt`, expiry with the default
5-minute buffer. -/
def getStoredToken (now : Int) (store : SessionStore) :
    Option SpotifyTokenData × SessionStore :=
  match store with
  | none => (none, none)
  | some .malformed => (none, clearToken store)
  | some (.record d) =>
    if d.accessToken = "" then (none, clearToken store)
    else if d.expiresAt.falsy then (none, clearToken store)
    else if isTokenExpired now d.expiresAt TOKEN_EXPIRY_BUFFER_MS then (none, clearToken store)
    else (some d, store)

/-- `getAccessToken()`: the access-token string of a valid stored token. -/
def getAccessToken (now : Int) (store : SessionStore) : Option String :=
  (getStoredToken now store).1.map (fun d => d.accessToken)

/-- `hasValidToken()`: whether a valid (non-expired) token is stored. -/
def hasValidToken (now : Int) (store : SessionStore) : Bool :=
  (getStoredToken now store).1.isSome

/-- The browser-visible pieces of state `handleOAuthCallback` touches:
the URL fragment, whether `history.replaceState` was used to strip it,
and the sessionStorage slot. -/
structure WindowState where
  hash : String
  urlStripped : Bool
  store : SessionStore
deriving DecidableEq, Repr

/-- `handleOAuthCallback()`: return `null` on an empty hash; otherwise parse
the token from the hash FIRST, then strip the fragment from the visible URL
via `history.replaceState` regardless of the parse outcome, and store the
token when parsing succeeded. Returns the parsed token and the new window
state. -/
def handleOAuthCallback (now : Int) (w : WindowState) :
    Option SpotifyTokenData × WindowState :=
  if w.hash = "" then (none, w)
  else
    let tokenData := parseSpotifyTokenFromHash now w.hash
    let w' : WindowState := { w with hash := "", urlStripped := true }
    match tokenData with
    | some d => (some d, { w' with store := saveToken d w'.store })
    | none => (none, w')

/-! ### useSpotifyPlayer (src/lib/hooks/useSpotifyPlayer.ts) — timers -/

/-- A pending browser timeout: its (positive, unique) id and its delay.
All timeouts created by the hook are the automatic snippet stops. -/
structure Timer where
  id : Nat
  delayMs : Nat
deriving DecidableEq, Repr

/-- The browser's timer table: the next id to hand out and the timeouts that
are pending (set, not yet fired, not cleared). Ids start at 1 (browser
timeout ids are positive, so `if (snippetTimeoutRef.current)` is truthy). -/
structure TimerSystem where
  nextId : Nat
  pending : List Timer
deriving DecidableEq, Repr

/-- `setTimeout(f, delayMs)`: a fresh pending timeout; returns its id. -/
def setTimeout (delayMs : Nat) (t : TimerSystem) : TimerSystem × Nat :=
  ({ nextId := t.nextId + 1, pending := t.pending ++ [⟨t.nextId, delayMs⟩] }, t.nextId)

/-- `clearTimeout(id)`: the timeout with this id is no longer pending. -/
def clearTimeout (tid : Nat) (t : TimerSystem) : TimerSystem :=
  { t with pending := t.pending.filter fun tm => tm.id ≠ tid }

/-- The hook state `playSnippet` / `stopPlayback` read and write:
the timer table, `snippetTimeoutRef`, `accessTokenRef`, and the
`deviceId` field of the React state. -/
structure PlayerState where
  timers : TimerSystem
  snippetTimeoutRef : Option Nat
  accessTokenRef : Option String
  deviceId : Option String
deriving DecidableEq, Repr

/-- `stopPlayback()`: clear the pending snippet timeout (if the ref holds one)
and null the ref, then pause the player (the pause itself is external and not
part of this state). -/
def stopPlayback (s : PlayerState) : PlayerState :=
  match s.snippetTimeoutRef with
  | some tid =>
    { s with timers := clearTimeout tid s.timers, snippetTimeoutRef := none }
  | none => s

/-- `playSnippet(trackUri, startMs)`. The network call is abstracted by
`fetchResult` (`.ok` for a 2xx response, `.error` carries the response text).
Mirrors the source order: guard on a falsy access token or device id and
throw before anything else; clear any existing snippet timeout (the ref is
NOT nulled here, as in the source); issue the request; on failure throw; on
success schedule the automatic stop `SNIPPET_DURATION_MS` later and store its
id in the ref. Returns the thrown error (if any) and the state after the
call. -/
def playSnippet (fetchResult : Except String Unit) (trackUri : String)
    (startMs : Int) (s : PlayerState) : Except String Unit × PlayerState :=
  if jsFalsyStr s.accessTokenRef || jsFalsyStr s.deviceId then
    (.error "Spotify not ready or not authenticated", s)
  else
    let s1 :=
      match s.snippetTimeoutRef with
      | some tid => { s with timers := clearTimeout tid s.timers }
      | none => s
    match fetchResult with
    | .error e => (.error ("Failed to start playback: " ++ e), s1)
    | .ok _ =>
      let st := setTimeout SNIPPET_DURATION_MS s1.timers
      (.ok (), { s1 with timers := st.1, snippetTimeoutRef := some st.2 })

/-- Invariant of the hook state: at most one automatic stop is pending, every
pending stop is the one `snippetTimeoutRef` holds, and pending ids are older
than the timer table's next id. -/
def PlayerInv (s : PlayerState) : Prop :=
  s.timers.pending.length ≤ 1 ∧
  ∀ tm ∈ s.timers.pending,
    s.snippetTimeoutRef = some tm.id ∧ tm.id < s.timers.nextId

instance (s : PlayerState) : Decidable (PlayerInv s) := by
  unfold PlayerInv; infer_instance

/-! ### loadSpotifySDK (src/lib/hooks/useSpotifyPlayer.ts) -/

/-- The globals `loadSpotifySDK` and the SDK ready handler touch. Consumer
continuations (`onReady` closures) are identified by numbers. `executed` logs,
in order, the continuations that have run. -/
structure SDKLoaderState where
  spotifyLoaded : Bool
  sdkReady : Bool
  callbacks : Option (List Nat)
  scriptTags : Nat
  readyHandlerSet : Bool
  executed : List Nat
deriving DecidableEq, Repr

/-- What a cleanup function returned by `loadSpotifySDK` does when invoked. -/
inductive CleanupAction where
  | noop : CleanupAction
  | removeCallback : Nat → CleanupAction
deriving DecidableEq, Repr

/-- Remove the first occurrence of an element (`indexOf` + `splice(i, 1)`). -/
def removeFirst (x : Nat) : List Nat → List Nat
  | [] => []
  | y :: ys => if y = x then ys else y :: removeFirst x ys

/-- `loadSpotifySDK(onReady)`: run the continuation immediately when the SDK
is loaded and ready; otherwise queue it; when a script tag for the SDK URL
already exists just return a dequeue cleanup; otherwise install the global
ready handler, append the (single) script tag, and return the same cleanup. -/
def loadSpotifySDK (cb : Nat) (s : SDKLoaderState) : SDKLoaderState × CleanupAction :=
  if s.spotifyLoaded && s.sdkReady then
    ({ s with executed := s.executed ++ [cb] }, .noop)
  else
    let queued := s.callbacks.getD []
    let s1 := { s with callbacks := some (queued ++ [cb]) }
    if s1.scriptTags > 0 then
      (s1, .removeCallback cb)
    else
      ({ s1 with readyHandlerSet := true, scriptTags := s1.scriptTags + 1 },
       .removeCallback cb)

/-- Invoke a cleanup returned by `loadSpotifySDK`: the dequeue removes the
continuation's first occurrence from the shared queue. -/
def runCleanup : CleanupAction → SDKLoaderState → SDKLoaderState
  | .noop, s => s
  | .removeCallback cb, s =>
    match s.callbacks with
    | none => s
    | some l => { s with callbacks := some (removeFirst cb l) }

/-- The SDK script finishing: the SDK global appears and the installed
`onSpotifyWebPlaybackSDKReady` handler runs — it marks the SDK ready, runs
every queued continuation in order, then clears the queue. -/
def fireSDKReady (s : SDKLoaderState) : SDKLoaderState :=
  { s with spotifyLoaded := true, sdkReady := true,
           executed := s.executed ++ s.callbacks.getD [],
           callbacks := some [] }

/-- The per-consumer view of `useSpotifyPlayer`: the mount flag and whether a
player was created and connected for this consumer. -/
structure ConsumerState where
  isMounted : Bool
  playerCreated : Bool
  playerConnected : Bool
deriving DecidableEq, Repr

/-- The `initializePlayer` continuation of `useSpotifyPlayer`: bail out after
unmount, never create a duplicate player, otherwise create one and connect. -/
def runInitializePlayer (c : ConsumerState) : ConsumerState :=
  if !c.isMounted then c
  else if c.playerCreated then c
  else { c with playerCreated := true, playerConnected := true }

/-! ### QuizPlayer client tools (src/components/QuizPlayer.tsx) -/

/-- `replaysRef.current`: a record from song number to replay count; an absent
key reads as 0 (`replaysRef.current[songKey] || 0`). -/
abbrev ReplayCounts := List (String × Nat)

def getCount (m : ReplayCounts) (k : String) : Nat :=
  match m with
  | [] => 0
  | (k', v) :: rest => if k' = k then v else getCount rest k

def setCount (m : ReplayCounts) (k : String) (v : Nat) : ReplayCounts :=
  match m with
  | [] => [(k, v)]
  | (k', v') :: rest => if k' = k then (k, v) :: rest else (k', v') :: setCount rest k v

/-- Result of running one client tool: `.ok` is the string handed back to the
agent, `.error` an exception escaping the handler (its message). -/
abbrev ToolResult := Except String String

/-- The `play_song_snippet` tool. `playResult` abstracts the `playSnippet`
promise (`.error` carries the rejection's message). Returns the tool result,
the replay counts after the call, and whether `playSnippet` was invoked.
Mirrors the source: a replay past `MAX_REPLAYS` returns a "Cannot replay"
message without playing; otherwise the count is updated (incremented for a
replay, reset to 0 for a fresh song) and `playSnippet` runs inside
try/catch, a rejection becoming the string `Error playing song: ...`. -/
def playSongSnippetTool (playResult : Except String Unit) (songNumber : String)
    (isReplayParam : Option String) (r : ReplayCounts) :
    ToolResult × ReplayCounts × Bool :=
  let isReplay := isReplayParam = some "true"
  if isReplay then
    let currentReplays := getCount r songNumber
    if MAX_REPLAYS ≤ currentReplays then
      (.ok s!"Cannot replay - maximum {MAX_REPLAYS} replays reached for this song",
       r, false)
    else
      let r1 := setCount r songNumber (currentReplays + 1)
      match playResult with
      | .ok _ =>
        (.ok s!"Replaying song {songNumber} ({MAX_REPLAYS - getCount r1 songNumber} replays remaining)",
         r1, true)
      | .error e => (.ok ("Error playing song: " ++ e), r1, true)
  else
    let r1 := setCount r songNumber 0
    match playResult with
    | .ok _ => (.ok s!"Playing song {songNumber}", r1, true)
    | .error e => (.ok ("Error playing song: " ++ e), r1, true)

/-- The `stop_playback` tool: `await stopPlayback(); return "Playback
stopped";` with no try/catch — a rejection of `stopPlayback` escapes the
handler unchanged. -/
def stopPlaybackTool (stopResult : Except String Unit) : ToolResult :=
  match stopResult with
  | .ok _ => .ok "Playback stopped"
  | .error e => .error e

/-! ### Concrete states used by witnesses -/

/-- A hook state with one pending automatic stop, authenticated and ready. -/
def sampleHookState : PlayerState :=
  { timers := { nextId := 2, pending := [⟨1, 5000⟩] },
    snippetTimeoutRef := some 1,
    accessTokenRef := some "tok",
    deviceId := some "dev" }

/-- A hook state that never authenticated. -/
def sampleNoAuthState : PlayerState :=
  { timers := { nextId := 2, pending := [⟨1, 5000⟩] },
    snippetTimeoutRef := some 1,
    accessTokenRef := none,
    deviceId := some "dev" }

/-- The loader's globals before anything loaded. -/
def sdkInitialState : SDKLoaderState :=
  { spotifyLoaded := false, sdkReady := false, callbacks := none,
    scriptTags := 0, readyHandlerSet := false, executed := [] }

/-! ### Theorems -/

/-- Helper: `playSnippet` with a falsy token or device id rejects untouched. -/
theorem playSnippet_guard_err (s : PlayerState) (fr : Except String Unit)
    (uri : String) (ms : Int)
    (h : (jsFalsyStr s.accessTokenRef || jsFalsyStr s.deviceId) = true) :
    playSnippet fr uri ms s = (.error "Spotify not ready or not authenticated", s) := by
  unfold playSnippet
  rw [if_pos h]

/-- Helper: `playSnippet` past the guard with a failed request clears the old
timeout and rethrows the response text. -/
theorem playSnippet_fetch_err (s : PlayerState) (e : String) (uri : String) (ms : Int)
    (h : (jsFalsyStr s.accessTokenRef || jsFalsyStr s.deviceId) = false) :
    playSnippet (.error e) uri ms s =
      (.error ("Failed to start playback: " ++ e),
       match s.snippetTimeoutRef with
       | some tid => { s with timers := clearTimeout tid s.timers }
       | none => s) := by
  unfold playSnippet
  rw [if_neg (by simp [h])]

/-- Helper: `playSnippet` past the guard with a 2xx response clears the old
timeout and schedules the snippet stop. -/
theorem playSnippet_fetch_ok (s : PlayerState) (uri : String) (ms : Int)
    (h : (jsFalsyStr s.accessTokenRef || jsFalsyStr s.deviceId) = false) :
    playSnippet (.ok ()) uri ms s =
      (.ok (),
       { timers :=
           { nextId := s.timers.nextId + 1,
             pending := (match s.snippetTimeoutRef with
               | some tid => { s with timers := clearTimeout tid s.timers }
               | none => s).timers.pending ++ [⟨s.timers.nextId, SNIPPET_DURATION_MS⟩] },
         snippetTimeoutRef := some s.timers.nextId,
         accessTokenRef := s.accessTokenRef,
         deviceId := s.deviceId }) := by
  unfold playSnippet
  rw [if_neg (by simp [h])]
  cases hr : s.snippetTimeoutRef <;> simp [hr, setTimeout, clearTimeout]

/-- C1: a stored token record whose remaining validity (`expiresAt - now`) is
below the 5-minute safety buffer is reported as absent by `getStoredToken`
(and `hasValidToken` is false), and the stale record is removed from
storage. -/
theorem getStoredToken_expiring_token_absent (now e : Int) (d : SpotifyTokenData)
    (hd : d.expiresAt = .val e) (h : e - now < TOKEN_EXPIRY_BUFFER_MS) :
    getStoredToken now (some (.record d)) = (none, none) ∧
    hasValidToken now (some (.record d)) = false := by
  have hmain : getStoredToken now (some (.record d)) = (none, none) := by
    simp only [getStoredToken, clearToken]
    split_ifs with h1 h2 h3
    · rfl
    · rfl
    · rfl
    · exfalso
      apply h3
      rw [hd]
      unfold isTokenExpired
      simp only [decide_eq_true_eq]
      omega
  exact ⟨hmain, by simp [hasValidToken, hmain]⟩

theorem getStoredToken_expiring_token_absent_witness :
    ((⟨"t", "Bearer", .val 100000⟩ : SpotifyTokenData).expiresAt = .val 100000) ∧
    (100000 - (0 : Int) < TOKEN_EXPIRY_BUFFER_MS) ∧
    (getStoredToken 0 (some (.record ⟨"t", "Bearer", .val 100000⟩)) = (none, none) ∧
     hasValidToken 0 (some (.record ⟨"t", "Bearer", .val 100000⟩)) = false) :=
  ⟨rfl, by decide,
   getStoredToken_expiring_token_absent 0 100000 ⟨"t", "Bearer", .val 100000⟩ rfl (by decide)⟩

/-- C7: after `clearToken`, every subsequent read reports the token absent:
`getStoredToken` returns `null` (and clears nothing further), `getAccessToken`
returns `null` and `hasValidToken` returns `false`, regardless of what was
stored before the clear. -/
theorem clearToken_subsequent_reads_absent (now : Int) (store : SessionStore) :
    getStoredToken now (clearToken store) = (none, none) ∧
    getAccessToken now (clearToken store) = none ∧
    hasValidToken now (clearToken store) = false := by
  simp [clearToken, getStoredToken, getAccessToken, hasValidToken]

/-- C5: on a non-empty URL fragment, `handleOAuthCallback` returns exactly
what `parseSpotifyTokenFromHash` extracts from the original fragment (the
parse happens before the strip), strips the fragment from the visible URL via
`history.replaceState` regardless of the parse outcome, and persists the
parsed record (with its absolute expiry instant) in the session store exactly
when parsing succeeded. -/
theorem handleOAuthCallback_parses_strips_stores (now : Int) (w : WindowState)
    (h : w.hash ≠ "") :
    handleOAuthCallback now w =
      (parseSpotifyTokenFromHash now w.hash,
       { hash := "", urlStripped := true,
         store := match parseSpotifyTokenFromHash now w.hash with
                  | some d => some (.record d)
                  | none => w.store }) := by
  unfold handleOAuthCallback
  rw [if_neg h]
  cases hp : parseSpotifyTokenFromHash now w.hash <;>
    simp [hp, saveToken]

theorem handleOAuthCallback_parses_strips_stores_witness :
    ("#access_token=tok&expires_in=60" : String) ≠ "" ∧
    handleOAuthCallback 0 ⟨"#access_token=tok&expires_in=60", false, none⟩ =
      (some ⟨"tok", "Bearer", .val 60000⟩,
       ⟨"", true, some (.record ⟨"tok", "Bearer", .val 60000⟩)⟩) :=
  ⟨by decide,
   (handleOAuthCallback_parses_strips_stores 0
      ⟨"#access_token=tok&expires_in=60", false, none⟩ (by decide)).trans (by decide)⟩

/-- C6: a malformed or missing OAuth fragment — empty hash, hash not starting
with `#`, or a fragment without an `access_token` parameter — makes
`handleOAuthCallback` return `null` (the function is total, so nothing is
thrown) and leaves the session store untouched: the user stays
unauthenticated. -/
theorem handleOAuthCallback_malformed_fragment (now : Int) (w : WindowState)
    (h : w.hash = "" ∨ startsWithHash w.hash = false ∨
         urlParamsGet ⟨w.hash.data.tail⟩ "access_token" = none) :
    (handleOAuthCallback now w).1 = none ∧
    (handleOAuthCallback now w).2.store = w.store := by
  by_cases h0 : w.hash = ""
  · simp [handleOAuthCallback, h0]
  · have hp : parseSpotifyTokenFromHash now w.hash = none := by
      rcases h with h | h | h
      · exact absurd h h0
      · simp [parseSpotifyTokenFromHash, h]
      · simp only [parseSpotifyTokenFromHash, h]
        split_ifs with hc
        · rfl
        · rfl
    simp [handleOAuthCallback, if_neg h0, hp]

/-- Helper: when the ref holds no timeout, the invariant forces an empty
pending list. -/
theorem pending_nil_of_ref_none (s : PlayerState) (hInv : PlayerInv s)
    (h : s.snippetTimeoutRef = none) : s.timers.pending = [] := by
  refine List.eq_nil_iff_forall_not_mem.mpr fun tm hm => ?_
  have := (hInv.2 tm hm).1
  rw [h] at this
  exact Option.noConfusion this

/-- Helper: clearing the timeout the ref holds empties the pending list. -/
theorem clearTimeout_ref_pending_nil (s : PlayerState) (hInv : PlayerInv s)
    (tid : Nat) (h : s.snippetTimeoutRef = some tid) :
    (clearTimeout tid s.timers).pending = [] := by
  unfold clearTimeout
  refine List.filter_eq_nil_iff.mpr fun tm hm => ?_
  have h2 := (hInv.2 tm hm).1
  rw [h] at h2
  have h3 : tid = tm.id := Option.some.inj h2
  simp [h3]

/-- Helper: after `playSnippet` clears whatever timeout the ref holds, no
automatic stop is pending and the timer table's counter is unchanged. -/
theorem playSnippet_cleared_state (s : PlayerState) (hInv : PlayerInv s) :
    (match s.snippetTimeoutRef with
     | some tid => { s with timers := clearTimeout tid s.timers }
     | none => s).timers.pending = [] ∧
    (match s.snippetTimeoutRef with
     | some tid => { s with timers := clearTimeout tid s.timers }
     | none => s).timers.nextId = s.timers.nextId := by
  cases h : s.snippetTimeoutRef with
  | none => exact ⟨pending_nil_of_ref_none s hInv h, rfl⟩
  | some tid => exact ⟨clearTimeout_ref_pending_nil s hInv tid h, rfl⟩

theorem handleOAuthCallback_malformed_fragment_witness :
    (("#error=denied" : String) = "" ∨ startsWithHash "#error=denied" = false ∨
       urlParamsGet ⟨("#error=denied" : String).data.tail⟩ "access_token" = none) ∧
    ((handleOAuthCallback 5 ⟨"#error=denied", false, some .malformed⟩).1 = none ∧
     (handleOAuthCallback 5 ⟨"#error=denied", false, some .malformed⟩).2.store =
       some .malformed) :=
  ⟨by decide,
   handleOAuthCallback_malformed_fragment 5 ⟨"#error=denied", false, some .malformed⟩
     (by decide)⟩

/-- C2: starting from any hook state satisfying the pending-stop invariant, a
successful `playSnippet` cancels every previously pending automatic stop and
leaves exactly one pending automatic stop, scheduled `SNIPPET_DURATION_MS`
(5000 ms) later and held by the ref; `stopPlayback` cancels the pending
automatic stop; and both operations preserve the invariant, so at most one
automatic stop is ever pending. -/
theorem playSnippet_single_pending_stop (s : PlayerState)
    (fetchResult : Except String Unit) (uri : String) (ms : Int)
    (hInv : PlayerInv s) :
    SNIPPET_DURATION_MS = 5000 ∧
    ((playSnippet fetchResult uri ms s).1 = .ok () →
      (playSnippet fetchResult uri ms s).2.timers.pending =
        [⟨s.timers.nextId, SNIPPET_DURATION_MS⟩] ∧
      (playSnippet fetchResult uri ms s).2.snippetTimeoutRef = some s.timers.nextId ∧
      ∀ tm ∈ s.timers.pending, tm ∉ (playSnippet fetchResult uri ms s).2.timers.pending) ∧
    (stopPlayback s).timers.pending = [] ∧
    PlayerInv (playSnippet fetchResult uri ms s).2 ∧
    PlayerInv (stopPlayback s) := by
  have hstop : (stopPlayback s).timers.pending = [] := by
    cases h : s.snippetTimeoutRef with
    | none =>
      simp only [stopPlayback, h]
      exact pending_nil_of_ref_none s hInv h
    | some tid =>
      simp only [stopPlayback, h]
      exact clearTimeout_ref_pending_nil s hInv tid h
  have hstopInv : PlayerInv (stopPlayback s) := by
    constructor
    · rw [hstop]; simp
    · intro tm hm
      rw [hstop] at hm
      exact absurd hm (List.not_mem_nil tm)
  refine ⟨rfl, ?_, hstop, ?_, hstopInv⟩
  · intro hok
    by_cases hg : (jsFalsyStr s.accessTokenRef || jsFalsyStr s.deviceId) = true
    · rw [playSnippet_guard_err s fetchResult uri ms hg] at hok
      exact absurd hok (by simp)
    · have hg' := Bool.not_eq_true _ |>.mp hg
      cases fetchResult with
      | error e =>
        rw [playSnippet_fetch_err s e uri ms hg'] at hok
        exact absurd hok (by simp)
      | ok u =>
        cases u
        rw [playSnippet_fetch_ok s uri ms hg']
        obtain ⟨hcp, _⟩ := playSnippet_cleared_state s hInv
        refine ⟨by simp [hcp], rfl, ?_⟩
        intro tm hm
        have hlt := (hInv.2 tm hm).2
        rw [hcp]
        simp only [List.nil_append, List.mem_singleton]
        intro heq
        rw [heq] at hlt
        exact absurd hlt (lt_irrefl _)
  · by_cases hg : (jsFalsyStr s.accessTokenRef || jsFalsyStr s.deviceId) = true
    · rw [playSnippet_guard_err s fetchResult uri ms hg]
      exact hInv
    · have hg' := Bool.not_eq_true _ |>.mp hg
      obtain ⟨hcp, _⟩ := playSnippet_cleared_state s hInv
      cases fetchResult with
      | error e =>
        rw [playSnippet_fetch_err s e uri ms hg']
        constructor
        · simp [hcp]
        · intro tm hm
          rw [hcp] at hm
          exact absurd hm (List.not_mem_nil tm)
      | ok u =>
        cases u
        rw [playSnippet_fetch_ok s uri ms hg']
        constructor
        · rw [hcp]; simp
        · intro tm hm
          rw [hcp] at hm
          simp only [List.nil_append, List.mem_singleton] at hm
          subst hm
          exact ⟨rfl, Nat.lt_succ_self _⟩

theorem playSnippet_single_pending_stop_witness :
    PlayerInv sampleHookState ∧
    (SNIPPET_DURATION_MS = 5000 ∧
     ((playSnippet (.ok ()) "spotify:track:x" 0 sampleHookState).1 = .ok () →
       (playSnippet (.ok ()) "spotify:track:x" 0 sampleHookState).2.timers.pending =
         [⟨sampleHookState.timers.nextId, SNIPPET_DURATION_MS⟩] ∧
       (playSnippet (.ok ()) "spotify:track:x" 0 sampleHookState).2.snippetTimeoutRef =
         some sampleHookState.timers.nextId ∧
       ∀ tm ∈ sampleHookState.timers.pending,
         tm ∉ (playSnippet (.ok ()) "spotify:track:x" 0 sampleHookState).2.timers.pending) ∧
     (stopPlayback sampleHookState).timers.pending = [] ∧
     PlayerInv (playSnippet (.ok ()) "spotify:track:x" 0 sampleHookState).2 ∧
     PlayerInv (stopPlayback sampleHookState)) :=
  ⟨by decide,
   playSnippet_single_pending_stop sampleHookState (.ok ()) "spotify:track:x" 0 (by decide)⟩

/-- C10: a `playSnippet` call while the access token is unset or the device
id is null rejects with `Spotify not ready or not authenticated` and leaves
the whole hook state — in particular any pending automatic-stop timer —
unchanged; the result does not depend on the network outcome, so no request
is issued. -/
theorem playSnippet_not_ready_rejects (s : PlayerState)
    (fetchResult : Except String Unit) (uri : String) (ms : Int)
    (h : s.accessTokenRef = none ∨ s.deviceId = none) :
    playSnippet fetchResult uri ms s =
      (.error "Spotify not ready or not authenticated", s) := by
  apply playSnippet_guard_err
  rcases h with h | h <;> simp [h, jsFalsyStr]

theorem playSnippet_not_ready_rejects_witness :
    (sampleNoAuthState.accessTokenRef = none ∨ sampleNoAuthState.deviceId = none) ∧
    playSnippet (.ok ()) "spotify:track:x" 0 sampleNoAuthState =
      (.error "Spotify not ready or not authenticated", sampleNoAuthState) :=
  ⟨Or.inl rfl,
   playSnippet_not_ready_rejects sampleNoAuthState (.ok ()) "spotify:track:x" 0 (Or.inl rfl)⟩

/-- Helper: removing an element that is not in a list changes nothing. -/
theorem removeFirst_not_mem (x : Nat) (l : List Nat) (h : x ∉ l) :
    removeFirst x l = l := by
  induction l with
  | nil => rfl
  | cons y ys ih =>
    simp only [removeFirst]
    rw [if_neg (by rintro rfl; exact h (List.mem_cons_self y ys))]
    rw [ih (fun hm => h (List.mem_cons_of_mem y hm))]

/-- Helper: removing the element just appended to a list it is not in gives
back the list. -/
theorem removeFirst_append_self (x : Nat) (l : List Nat) (h : x ∉ l) :
    removeFirst x (l ++ [x]) = l := by
  induction l with
  | nil => simp [removeFirst]
  | cons y ys ih =>
    rw [List.cons_append]
    simp only [removeFirst]
    rw [if_neg (by rintro rfl; exact h (List.mem_cons_self y ys))]
    rw [ih (fun hm => h (List.mem_cons_of_mem y hm))]

/-- C3: when two consumers call `loadSpotifySDK` before the SDK is loaded and
ready (no SDK script tag yet), exactly one script element is appended, both
continuations are queued in order behind any earlier ones and neither has
run, and the SDK ready signal runs every queued continuation in order and
clears the queue. -/
theorem loadSpotifySDK_two_consumers (s0 : SDKLoaderState) (cb1 cb2 : Nat)
    (hscript : s0.scriptTags = 0)
    (hready : (s0.spotifyLoaded && s0.sdkReady) = false) :
    (loadSpotifySDK cb2 (loadSpotifySDK cb1 s0).1).1.scriptTags = 1 ∧
    (loadSpotifySDK cb2 (loadSpotifySDK cb1 s0).1).1.callbacks =
      some (s0.callbacks.getD [] ++ [cb1, cb2]) ∧
    (loadSpotifySDK cb2 (loadSpotifySDK cb1 s0).1).1.executed = s0.executed ∧
    (fireSDKReady (loadSpotifySDK cb2 (loadSpotifySDK cb1 s0).1).1).executed =
      s0.executed ++ (s0.callbacks.getD [] ++ [cb1, cb2]) ∧
    (fireSDKReady (loadSpotifySDK cb2 (loadSpotifySDK cb1 s0).1).1).callbacks =
      some [] := by
  have h1 : (loadSpotifySDK cb1 s0).1 =
      { s0 with callbacks := some (s0.callbacks.getD [] ++ [cb1]),
                readyHandlerSet := true, scriptTags := s0.scriptTags + 1 } := by
    unfold loadSpotifySDK
    rw [if_neg (by simp [hready])]
    simp only [hscript]
    rw [if_neg (by simp)]
  have h2 : (loadSpotifySDK cb2 (loadSpotifySDK cb1 s0).1).1 =
      { s0 with callbacks := some (s0.callbacks.getD [] ++ [cb1, cb2]),
                readyHandlerSet := true, scriptTags := s0.scriptTags + 1 } := by
    rw [h1]
    unfold loadSpotifySDK
    rw [if_neg (by simp [hready])]
    simp only [Option.getD_some]
    rw [if_pos (by simp)]
    simp
  rw [h2, fireSDKReady]
  simp [hscript]

theorem loadSpotifySDK_two_consumers_witness :
    sdkInitialState.scriptTags = 0 ∧
    (sdkInitialState.spotifyLoaded && sdkInitialState.sdkReady) = false ∧
    ((loadSpotifySDK 2 (loadSpotifySDK 1 sdkInitialState).1).1.scriptTags = 1 ∧
     (loadSpotifySDK 2 (loadSpotifySDK 1 sdkInitialState).1).1.callbacks =
       some (sdkInitialState.callbacks.getD [] ++ [1, 2]) ∧
     (loadSpotifySDK 2 (loadSpotifySDK 1 sdkInitialState).1).1.executed =
       sdkInitialState.executed ∧
     (fireSDKReady (loadSpotifySDK 2 (loadSpotifySDK 1 sdkInitialState).1).1).executed =
       sdkInitialState.executed ++ (sdkInitialState.callbacks.getD [] ++ [1, 2]) ∧
     (fireSDKReady (loadSpotifySDK 2 (loadSpotifySDK 1 sdkInitialState).1).1).callbacks =
       some []) :=
  ⟨rfl, rfl, loadSpotifySDK_two_consumers sdkInitialState 1 2 rfl rfl⟩

/-- C4: a consumer that subscribes before the SDK is ready and then runs its
cleanup (unmount) is removed from the shared queue, so the SDK ready signal
never executes its continuation; and `initializePlayer` for an unmounted
consumer creates and connects no player. -/
theorem loadSpotifySDK_unmounted_consumer (s0 : SDKLoaderState) (cb : Nat)
    (c : ConsumerState)
    (hready : (s0.spotifyLoaded && s0.sdkReady) = false)
    (hq : cb ∉ s0.callbacks.getD [])
    (hex : cb ∉ s0.executed)
    (hc : c.isMounted = false) :
    cb ∉ (runCleanup (loadSpotifySDK cb s0).2 (loadSpotifySDK cb s0).1).callbacks.getD [] ∧
    cb ∉ (fireSDKReady
            (runCleanup (loadSpotifySDK cb s0).2 (loadSpotifySDK cb s0).1)).executed ∧
    runInitializePlayer c = c := by
  have hload : (loadSpotifySDK cb s0).2 = .removeCallback cb ∧
      (loadSpotifySDK cb s0).1.callbacks = some (s0.callbacks.getD [] ++ [cb]) ∧
      (loadSpotifySDK cb s0).1.executed = s0.executed := by
    unfold loadSpotifySDK
    rw [if_neg (by simp [hready])]
    by_cases hs : s0.scriptTags > 0
    · rw [if_pos (by simpa using hs)]
      exact ⟨rfl, rfl, rfl⟩
    · rw [if_neg (by simpa using hs)]
      exact ⟨rfl, rfl, rfl⟩
  obtain ⟨hact, hcbs, hexe⟩ := hload
  have hccbs :
      (runCleanup (loadSpotifySDK cb s0).2 (loadSpotifySDK cb s0).1).callbacks =
        some (s0.callbacks.getD []) := by
    rw [hact]
    simp only [runCleanup]
    rw [hcbs]
    simp [removeFirst_append_self cb _ hq]
  have hcexe :
      (runCleanup (loadSpotifySDK cb s0).2 (loadSpotifySDK cb s0).1).executed =
        s0.executed := by
    rw [hact]
    simp only [runCleanup]
    rw [hcbs]
    simpa using hexe
  refine ⟨?_, ?_, ?_⟩
  · rw [hccbs]
    simpa using hq
  · unfold fireSDKReady
    rw [hccbs, hcexe]
    simp only [Option.getD_some, List.mem_append]
    rintro (h | h)
    · exact hex h
    · exact hq h
  · unfold runInitializePlayer
    rw [hc]
    simp

theorem loadSpotifySDK_unmounted_consumer_witness :
    (sdkInitialState.spotifyLoaded && sdkInitialState.sdkReady) = false ∧
    (7 : Nat) ∉ sdkInitialState.callbacks.getD [] ∧
    (7 : Nat) ∉ sdkInitialState.executed ∧
    (⟨false, false, false⟩ : ConsumerState).isMounted = false ∧
    ((7 : Nat) ∉ (runCleanup (loadSpotifySDK 7 sdkInitialState).2
        (loadSpotifySDK 7 sdkInitialState).1).callbacks.getD [] ∧
     (7 : Nat) ∉ (fireSDKReady (runCleanup (loadSpotifySDK 7 sdkInitialState).2
        (loadSpotifySDK 7 sdkInitialState).1)).executed ∧
     runInitializePlayer ⟨false, false, false⟩ = ⟨false, false, false⟩) :=
  ⟨rfl, by decide, by decide, rfl,
   loadSpotifySDK_unmounted_consumer sdkInitialState 7 ⟨false, false, false⟩
     rfl (by decide) (by decide) rfl⟩

/-- Helper: lookup after writing the same key. -/
theorem getCount_setCount_self (m : ReplayCounts) (k : String) (v : Nat) :
    getCount (setCount m k v) k = v := by
  induction m with
  | nil => simp [setCount, getCount]
  | cons p rest ih =>
    obtain ⟨k', v'⟩ := p
    by_cases h : k' = k
    · simp [setCount, getCount, h]
    · simp only [setCount, if_neg h]
      simp only [getCount, if_neg h]
      exact ih

/-- Helper: lookup after writing a different key. -/
theorem getCount_setCount_ne (m : ReplayCounts) (k k2 : String) (v : Nat)
    (h : k2 ≠ k) : getCount (setCount m k v) k2 = getCount m k2 := by
  induction m with
  | nil =>
    simp only [setCount, getCount]
    rw [if_neg (fun hk => h hk.symm)]
  | cons p rest ih =>
    obtain ⟨k', v'⟩ := p
    by_cases hk : k' = k
    · subst hk
      simp only [setCount, if_pos rfl]
      simp only [getCount]
      rw [if_neg (fun hk2 => h hk2.symm), if_neg (fun hk2 => h hk2.symm)]
    · simp only [setCount, if_neg hk]
      simp only [getCount]
      by_cases h2 : k' = k2
      · rw [if_pos h2, if_pos h2]
      · rw [if_neg h2, if_neg h2]
        exact ih

/-- Helper: the `play_song_snippet` tool at the replay cap returns the
"Cannot replay" message, leaves the counts alone and does not play. -/
theorem playSongSnippetTool_at_limit (playResult : Except String Unit)
    (songNumber : String) (isReplayParam : Option String) (r : ReplayCounts)
    (hrep : isReplayParam = some "true")
    (hge : MAX_REPLAYS ≤ getCount r songNumber) :
    playSongSnippetTool playResult songNumber isReplayParam r =
      (.ok "Cannot replay - maximum 2 replays reached for this song", r, false) := by
  unfold playSongSnippetTool
  rw [if_pos hrep, if_pos hge]
  rfl

/-- Helper: the counts after a replay below the cap. -/
theorem playSongSnippetTool_counts_replay (playResult : Except String Unit)
    (songNumber : String) (isReplayParam : Option String) (r : ReplayCounts)
    (hrep : isReplayParam = some "true")
    (hlt : getCount r songNumber < MAX_REPLAYS) :
    (playSongSnippetTool playResult songNumber isReplayParam r).2.1 =
      setCount r songNumber (getCount r songNumber + 1) := by
  unfold playSongSnippetTool
  rw [if_pos hrep, if_neg (Nat.not_le.mpr hlt)]
  cases playResult <;> rfl

/-- Helper: the counts after a non-replay call. -/
theorem playSongSnippetTool_counts_fresh (playResult : Except String Unit)
    (songNumber : String) (isReplayParam : Option String) (r : ReplayCounts)
    (hrep : ¬ isReplayParam = some "true") :
    (playSongSnippetTool playResult songNumber isReplayParam r).2.1 =
      setCount r songNumber 0 := by
  unfold playSongSnippetTool
  rw [if_neg hrep]
  cases playResult <;> rfl

/-- C9: against any replay table where every song's recorded count is at most
`MAX_REPLAYS` (2), the `play_song_snippet` tool keeps every count at most
`MAX_REPLAYS`; a replay request for a song already at the cap returns the
"Cannot replay" message without playing and without touching the counts; and
a non-replay request resets that song's count to 0. -/
theorem playSongSnippetTool_replay_cap (playResult : Except String Unit)
    (songNumber : String) (isReplayParam : Option String) (r : ReplayCounts)
    (hbound : ∀ k, getCount r k ≤ MAX_REPLAYS) :
    (∀ k, getCount (playSongSnippetTool playResult songNumber isReplayParam r).2.1 k
        ≤ MAX_REPLAYS) ∧
    (isReplayParam = some "true" → MAX_REPLAYS ≤ getCount r songNumber →
      playSongSnippetTool playResult songNumber isReplayParam r =
        (.ok "Cannot replay - maximum 2 replays reached for this song", r, false)) ∧
    (isReplayParam ≠ some "true" →
      getCount (playSongSnippetTool playResult songNumber isReplayParam r).2.1
        songNumber = 0) := by
  refine ⟨?_, ?_, ?_⟩
  · intro k
    by_cases hrep : isReplayParam = some "true"
    · by_cases hge : MAX_REPLAYS ≤ getCount r songNumber
      · rw [playSongSnippetTool_at_limit playResult songNumber isReplayParam r hrep hge]
        exact hbound k
      · rw [playSongSnippetTool_counts_replay playResult songNumber isReplayParam r hrep
            (Nat.not_le.mp hge)]
        by_cases hk : k = songNumber
        · subst hk
          rw [getCount_setCount_self]
          omega
        · rw [getCount_setCount_ne r songNumber k _ hk]
          exact hbound k
    · rw [playSongSnippetTool_counts_fresh playResult songNumber isReplayParam r hrep]
      by_cases hk : k = songNumber
      · subst hk
        rw [getCount_setCount_self]
        exact Nat.zero_le _
      · rw [getCount_setCount_ne r songNumber k _ hk]
        exact hbound k
  · intro hrep hge
    exact playSongSnippetTool_at_limit playResult songNumber isReplayParam r hrep hge
  · intro hrep
    rw [playSongSnippetTool_counts_fresh playResult songNumber isReplayParam r hrep]
    rw [getCount_setCount_self]

theorem playSongSnippetTool_replay_cap_witness :
    (∀ k, getCount [("3", 2)] k ≤ MAX_REPLAYS) ∧
    ((∀ k, getCount (playSongSnippetTool (.ok ()) "3" (some "true") [("3", 2)]).2.1 k
        ≤ MAX_REPLAYS) ∧
     ((some "true" : Option String) = some "true" →
       MAX_REPLAYS ≤ getCount [("3", 2)] "3" →
       playSongSnippetTool (.ok ()) "3" (some "true") [("3", 2)] =
         (.ok "Cannot replay - maximum 2 replays reached for this song",
          [("3", 2)], false)) ∧
     ((some "true" : Option String) ≠ some "true" →
       getCount (playSongSnippetTool (.ok ()) "3" (some "true") [("3", 2)]).2.1
         "3" = 0)) :=
  have hb : ∀ k, getCount [("3", 2)] k ≤ MAX_REPLAYS := by
    intro k
    by_cases h : ("3" : String) = k <;> simp [getCount, h, MAX_REPLAYS]
  ⟨hb, playSongSnippetTool_replay_cap (.ok ()) "3" (some "true") [("3", 2)] hb⟩

/-- C8 counterexample: the claim says no playback error escapes any playback
tool handler, but the `stop_playback` handler has no try/catch: a rejection
from `stopPlayback` propagates out of the handler as an exception instead of
being returned as a string. -/
theorem stopPlaybackTool_error_escapes :
    stopPlaybackTool (.error "Playback device disconnected") =
      .error "Playback device disconnected" := rfl

/-- C8 amended: the `play_song_snippet` handler never lets an error escape —
a `playSnippet` rejection (whenever `playSnippet` is actually invoked, i.e.
outside the replay-cap short circuit) is caught and returned as the string
`Error playing song: ...` — while the `stop_playback` handler returns
"Playback stopped" on success but propagates a `stopPlayback` rejection to
the calling agent. -/
theorem playbackTool_error_handling (playResult : Except String Unit)
    (songNumber : String) (isReplayParam : Option String) (r : ReplayCounts)
    (e : String) :
    (∃ msg, (playSongSnippetTool playResult songNumber isReplayParam r).1 = .ok msg) ∧
    (playResult = .error e →
      ¬(isReplayParam = some "true" ∧ MAX_REPLAYS ≤ getCount r songNumber) →
      (playSongSnippetTool playResult songNumber isReplayParam r).1 =
        .ok ("Error playing song: " ++ e)) ∧
    stopPlaybackTool (.ok ()) = .ok "Playback stopped" ∧
    stopPlaybackTool (.error e) = .error e := by
  refine ⟨?_, ?_, rfl, rfl⟩
  · unfold playSongSnippetTool
    by_cases hrep : isReplayParam = some "true"
    · rw [if_pos hrep]
      by_cases hge : MAX_REPLAYS ≤ getCount r songNumber
      · rw [if_pos hge]
        exact ⟨_, rfl⟩
      · rw [if_neg hge]
        cases playResult <;> exact ⟨_, rfl⟩
    · rw [if_neg hrep]
      cases playResult <;> exact ⟨_, rfl⟩
  · intro hres hnot
    subst hres
    unfold playSongSnippetTool
    by_cases hrep : isReplayParam = some "true"
    · rw [if_pos hrep]
      have hge : ¬ MAX_REPLAYS ≤ getCount r songNumber :=
        fun hge => hnot ⟨hrep, hge⟩
      rw [if_neg hge]
    · rw [if_neg hrep]

theorem playbackTool_error_handling_witness :
    (∃ msg, (playSongSnippetTool (.error "boom") "3" none []).1 = .ok msg) ∧
    (playSongSnippetTool (.error "boom") "3" none []).1 =
      .ok ("Error playing song: " ++ "boom") ∧
    stopPlaybackTool (.ok ()) = .ok "Playback stopped" ∧
    stopPlaybackTool (.error "boom") = .error "boom" :=
  have h := playbackTool_error_handling (.error "boom") "3" none [] "boom"
  ⟨h.1, h.2.1 rfl (by simp), h.2.2.1, h.2.2.2⟩

end Soundcheck
